import Mathlib

/-!
Verification of the fastAPI-service authentication gate and resource
handlers: a shallow embedding of `src/app/main.py` (together with the data
model of `src/app/models.py`) into Lean.

Modelling choices:
- the relational store is a pair of lists mirroring the `users` and
  `favored_cities` tables; UUID columns become `Nat` identifiers;
- a raised `HTTPException` becomes the `.error` branch of `Except`;
- password verification (`verify_password` from the missing `utils` module)
  is an explicit function parameter of the definitions that use it;
- JWT tokens are structured values recording the payload together with the
  key and algorithm they were signed with; `jwt_decode` succeeds only
  against the same key and an algorithm list containing that algorithm,
  and fails on an expiry in the past, mirroring PyJWT with default options.
-/

deriving instance DecidableEq for Except

namespace FastAPIService

/-- Row of the `users` table (models.py): id, username, email, created_at,
disabled_at, a nullable disabled flag and the password hash. -/
structure UserRow where
  id : Nat
  username : String
  email : String
  created_at : Nat
  disabled_at : Option Nat
  disabled : Option Bool
  hashed_password : String
  deriving Repr, DecidableEq

/-- Row of the `favored_cities` table (models.py): its own primary key
`favored_id`, the owning user id (column named `id`) and the city name. -/
structure CityRow where
  favored_id : Nat
  id : Nat
  city : String
  deriving Repr, DecidableEq

/-- The relational store: the two tables of models.py. -/
structure Store where
  users : List UserRow
  favored_cities : List CityRow
  deriving Repr, DecidableEq

/-- A raised HTTPException: status code, detail string, and the optional
value of a WWW-Authenticate response header. -/
structure HTTPException where
  status_code : Nat
  detail : String
  www_authenticate : Option String
  deriving Repr, DecidableEq

/-- Modelled from the spec: a signed bearer token, since the token helpers
live in the `utils` module absent from src. The `key` and `alg` fields
record which secret key and algorithm produced the signature. -/
structure Token where
  sub : Option String
  exp : Nat
  key : String
  alg : String
  deriving Repr, DecidableEq

/-- Decoded JWT payload: the `sub` and `exp` claims. -/
structure JwtPayload where
  sub : Option String
  exp : Nat
  deriving Repr, DecidableEq

/-- Modelled from the spec: `verify(token)` of the Token Issuer/Verifier
(the `jwt.decode(token, SECRET_KEY, algorithms=[ALGORITHM])` call), absent
from src together with `utils.SECRET_KEY`/`utils.ALGORITHM`. It fails
(returns `none`, the InvalidTokenError case) when the signature was made
with a different key or an algorithm outside the accepted list, or when
the embedded expiry is in the past; otherwise it returns the payload. -/
def jwt_decode (token : Token) (key : String) (algorithms : List String)
    (now : Nat) : Option JwtPayload :=
  if token.key = key ∧ token.alg ∈ algorithms then
    if token.exp < now then none
    else some ⟨token.sub, token.exp⟩
  else none

/-- Modelled from the spec: the 15-minute default ttl of the token issuer
(`utils` module absent from src; the spec records 15 minutes as the
undocumented fallback). In seconds. -/
def ACCESS_TOKEN_EXPIRE_SECONDS : Nat := 15 * 60

/-- Modelled from the spec: `create_access_token` of the missing `utils`
module. Embeds the subject and an absolute expiry (current time plus the
ttl, defaulting to 15 minutes) and signs with the given key and
algorithm. -/
def create_access_token (key alg : String) (now : Nat) (sub : Option String)
    (expires_delta : Option Nat) : Token :=
  { sub := sub
    exp := now + expires_delta.getD ACCESS_TOKEN_EXPIRE_SECONDS
    key := key
    alg := alg }

/-- main.py `get_user_by_username`: select the first row whose username
matches; a missing row raises HTTPException(404, "User not found"). The
argument is an Option because `get_current_user` passes the possibly-None
token subject. -/
def get_user_by_username (username : Option String) (db : Store) :
    Except HTTPException UserRow :=
  match db.users.find? (fun u => username == some u.username) with
  | none => .error ⟨404, "User not found", none⟩
  | some u => .ok u

/-- main.py `authenticate_user`. Python returns `False` or the user row;
we return `Except HTTPException (Option UserRow)` with `none` for False.
Note that `get_user_by_username` raises on a missing user, so the source
line `if not user: return False` is unreachable and is not modelled. -/
def authenticate_user (verify_password : String → String → Bool)
    (username password : String) (db : Store) :
    Except HTTPException (Option UserRow) :=
  match get_user_by_username (some username) db with
  | .error e => .error e
  | .ok user =>
    if verify_password password user.hashed_password = false then .ok none
    else .ok (some user)

/-- The `credentials_exception` of main.py `get_current_user`: 401 with a
WWW-Authenticate Bearer challenge. -/
def credentialsException : HTTPException :=
  ⟨401, "Could not validate credentials", some "Bearer"⟩

/-- main.py `get_current_user`: decode the bearer token (failures inside
the try block become `credentials_exception`), then look the subject up in
the store. The lookup call is outside the try block, so an HTTPException
raised by `get_user_by_username` propagates as-is; the source line
`if user is None: raise credentials_exception` is unreachable because the
helper raises 404 instead of returning None. -/
def get_current_user (key alg : String) (now : Nat) (token : Token)
    (db : Store) : Except HTTPException UserRow :=
  match jwt_decode token key [alg] now with
  | none => .error credentialsException
  | some payload =>
    match get_user_by_username payload.sub db with
    | .error e => .error e
    | .ok user => .ok user

/-- main.py `get_current_active_user`: reject a disabled user with
HTTPException(400, "Inactive user"). The disabled column is nullable and
Python truthiness treats None as false, hence `getD false`. -/
def get_current_active_user (current_user : UserRow) :
    Except HTTPException UserRow :=
  if current_user.disabled.getD false then .error ⟨400, "Inactive user", none⟩
  else .ok current_user

/-- The resolveBearer pipeline of the spec: the dependency chain
`get_current_user` then `get_current_active_user` guarding every protected
endpoint of main.py. -/
def resolveBearer (key alg : String) (now : Nat) (token : Token)
    (db : Store) : Except HTTPException UserRow :=
  match get_current_user key alg now token db with
  | .error e => .error e
  | .ok u => get_current_active_user u

/-- main.py `login_for_access_token` (the /token endpoint): authenticate,
map a False result to 401 "Incorrect username or password" with a Bearer
challenge, otherwise mint a token for the username with the default ttl. -/
def login_for_access_token (verify_password : String → String → Bool)
    (key alg : String) (now : Nat) (username password : String)
    (db : Store) : Except HTTPException Token :=
  match authenticate_user verify_password username password db with
  | .error e => .error e
  | .ok none => .error ⟨401, "Incorrect username or password", some "Bearer"⟩
  | .ok (some user) =>
    .ok (create_access_token key alg now (some user.username) none)

/-- main.py `create_user` (the /create_user/ endpoint; no authentication
dependency). Inserts a row hashing the supplied password; a uniqueness
violation on id, username or email is the IntegrityError swallowed by the
except branch, rolled back and rewrapped as a 400. `new_id` stands for the
server-generated uuid primary key and `now` for the created_at default. -/
def create_user (get_password_hash : String → String) (new_id now : Nat)
    (username email password : String) (db : Store) :
    Store × Except HTTPException (Nat × String × String) :=
  if db.users.any (fun u =>
      u.id == new_id || u.username == username || u.email == email) then
    (db, .error ⟨400, "User already exists: duplicate key", none⟩)
  else
    let row : UserRow :=
      { id := new_id
        username := username
        email := email
        created_at := now
        disabled_at := none
        disabled := none
        hashed_password := get_password_hash password }
    ({ db with users := db.users ++ [row] }, .ok (new_id, username, email))

/-- Core of main.py `add_favorite_city`: insert a city row whose owning
`id` column is the authenticated user id (the request carries only the
city name). A duplicate primary key is the error swallowed and rewrapped
as 400 by the except branch; `new_id` stands for the server-generated
uuid. Returns the new store and the response triple. -/
def add_favorite_city (new_id : Nat) (city : String)
    (current_user : UserRow) (db : Store) :
    Store × Except HTTPException (Nat × String × String) :=
  if db.favored_cities.any (fun c => c.favored_id == new_id) then
    (db, .error ⟨400, "Could not add city: duplicate key", none⟩)
  else
    let row : CityRow := { favored_id := new_id, id := current_user.id, city := city }
    ({ db with favored_cities := db.favored_cities ++ [row] },
     .ok (new_id, current_user.username, city))

/-- main.py `add_favorite_city` endpoint including its
`get_current_active_user` dependency. -/
def add_favorite_city_endpoint (key alg : String) (now : Nat) (token : Token)
    (new_id : Nat) (city : String) (db : Store) :
    Store × Except HTTPException (Nat × String × String) :=
  match resolveBearer key alg now token db with
  | .error e => (db, .error e)
  | .ok u => add_favorite_city new_id city u db

/-- Core of main.py `delete_favored_city`: delete every row whose
`favored_id` matches (the primary key, so at most one). When the rowcount
is 0 the handler raises HTTPException(404, "City not found") inside its
own try block; the catch-all except branch catches it, rolls back and
rewraps it as HTTPException(500, str(e)), whose detail string is
"404: City not found". -/
def delete_favored_city (favored_id : Nat) (db : Store) :
    Store × Except HTTPException Unit :=
  let remaining := db.favored_cities.filter (fun c => !(c.favored_id == favored_id))
  if remaining.length == db.favored_cities.length then
    (db, .error ⟨500, "404: City not found", none⟩)
  else
    ({ db with favored_cities := remaining }, .ok ())

/-- main.py `delete_favored_city` endpoint including its
`get_current_active_user` dependency. -/
def delete_favored_city_endpoint (key alg : String) (now : Nat)
    (token : Token) (favored_id : Nat) (db : Store) :
    Store × Except HTTPException Unit :=
  match resolveBearer key alg now token db with
  | .error e => (db, .error e)
  | .ok _ => delete_favored_city favored_id db

/-- Core of main.py `delete_user`: physically delete the row whose `id`
matches. Rowcount 0 raises HTTPException(404, "User not found") inside the
try block, caught by the catch-all except branch and rewrapped as
HTTPException(500, "404: User not found"). -/
def delete_user (id : Nat) (db : Store) : Store × Except HTTPException Unit :=
  let remaining := db.users.filter (fun u => !(u.id == id))
  if remaining.length == db.users.length then
    (db, .error ⟨500, "404: User not found", none⟩)
  else
    ({ db with users := remaining }, .ok ())

/-- main.py `delete_user` endpoint including its `get_current_active_user`
dependency. -/
def delete_user_endpoint (key alg : String) (now : Nat) (token : Token)
    (id : Nat) (db : Store) : Store × Except HTTPException Unit :=
  match resolveBearer key alg now token db with
  | .error e => (db, .error e)
  | .ok _ => delete_user id db

/-! Concrete fixtures used by counterexamples and witnesses. `vp1` and
`hash1` are a sample password verifier/hasher pair standing in for the
bcrypt pair of the missing `utils` module: the definitions above take the
verifier as a parameter, so any function of the right type instantiates
them. -/

/-- Sample password verifier: the digest is "h" prepended to the plaintext. -/
def vp1 : String → String → Bool := fun p d => d == "h" ++ p

/-- Sample password hasher matching `vp1`. -/
def hash1 : String → String := fun p => "h" ++ p

/-- Fixture: an enabled user alice (id 1, digest of password "pw"). -/
def aliceRow : UserRow :=
  ⟨1, "alice", "alice@example.com", 0, none, some false, "hpw"⟩

/-- Fixture: an enabled user bob (id 2) with a nullable disabled column. -/
def bobRow : UserRow :=
  ⟨2, "bob", "bob@example.com", 0, none, none, "hsecret"⟩

/-- Fixture: alice with the disabled flag set, same credentials. -/
def disabledAlice : UserRow :=
  ⟨1, "alice", "alice@example.com", 0, some 50, some true, "hpw"⟩

/-- Fixture store: alice and bob, no favorite cities. -/
def store1 : Store := ⟨[aliceRow, bobRow], []⟩

/-- Fixture store: only the disabled alice. -/
def store3 : Store := ⟨[disabledAlice], []⟩

/-- Fixture store: alice and bob, plus one favorite city owned by bob
(favored_id 7, owning id 2). -/
def store4 : Store := ⟨[aliceRow, bobRow], [⟨7, 2, "Oslo"⟩]⟩

/-- Fixture: a well-signed unexpired token for alice. -/
def aliceToken : Token := ⟨some "alice", 900, "k", "HS256"⟩

/-- Fixture: a well-signed unexpired token whose subject matches no user. -/
def ghostToken : Token := ⟨some "ghost", 900, "k", "HS256"⟩

/-- Fixture: a token for alice signed with a different secret key. -/
def badToken : Token := ⟨some "alice", 900, "wrong", "HS256"⟩

/-- Fixture: a well-signed token for alice whose expiry (5) is past. -/
def expiredToken : Token := ⟨some "alice", 5, "k", "HS256"⟩

/-- Helper: a filter that removed nothing is the identity. -/
theorem filter_of_length_eq {α : Type} (p : α → Bool) (l : List α)
    (h : (l.filter p).length = l.length) : l.filter p = l := by
  rw [List.filter_length_eq_length] at h
  exact List.filter_eq_self.mpr h

/-- Claim C1: the code evaluated at the failing input. For a username
absent from the store, login raises the 404 "User not found" of
`get_user_by_username` (the exception escapes `authenticate_user`, whose
`if not user` guard is unreachable), while a registered username with a
wrong password gets the uniform 401 "Incorrect username or password"; the
two outcomes are distinguishable, contradicting the claim. -/
theorem c1_unknown_username_leaks_user_not_found :
    login_for_access_token vp1 "k" "HS256" 0 "mallory" "pw" store1
      = .error ⟨404, "User not found", none⟩
    ∧ login_for_access_token vp1 "k" "HS256" 0 "alice" "nope" store1
      = .error ⟨401, "Incorrect username or password", some "Bearer"⟩
    ∧ (⟨404, "User not found", none⟩ : HTTPException)
      ≠ ⟨401, "Incorrect username or password", some "Bearer"⟩ := by
  decide

/-- Claim C2, counterexample: `create_user` mutates the store although its
definition takes no bearer token and performs no `resolveBearer` — an
unauthenticated state-changing operation, contradicting the claim. -/
theorem c2_counterexample_create_user_unauthenticated :
    create_user hash1 3 0 "carol" "c@example.com" "cpw" ⟨[], []⟩
      = (⟨[⟨3, "carol", "c@example.com", 0, none, none, "hcpw"⟩], []⟩,
         .ok (3, "carol", "c@example.com"))
    ∧ (⟨[⟨3, "carol", "c@example.com", 0, none, none, "hcpw"⟩], []⟩ : Store)
      ≠ ⟨[], []⟩ := by
  decide

/-- Claim C2 (amended): every token-guarded state-changing endpoint
(add_favorite_city, delete_favored_city, delete_user) leaves the store
unchanged and returns the authentication error whenever `resolveBearer`
fails; only `create_user` (registration) mutates without authentication. -/
theorem c2_guarded_endpoints_require_resolveBearer
    (key alg : String) (now : Nat) (token : Token) (db : Store)
    (e : HTTPException) (new_id fid uid : Nat) (city : String)
    (h : resolveBearer key alg now token db = .error e) :
    add_favorite_city_endpoint key alg now token new_id city db = (db, .error e)
    ∧ delete_favored_city_endpoint key alg now token fid db = (db, .error e)
    ∧ delete_user_endpoint key alg now token uid db = (db, .error e) := by
  unfold add_favorite_city_endpoint delete_favored_city_endpoint delete_user_endpoint
  rw [h]
  exact ⟨rfl, rfl, rfl⟩

/-- Witness for C2 (amended) at a token signed with the wrong key. -/
theorem c2_witness :
    resolveBearer "k" "HS256" 0 badToken store1 = .error credentialsException
    ∧ (add_favorite_city_endpoint "k" "HS256" 0 badToken 5 "Oslo" store1
        = (store1, .error credentialsException)
       ∧ delete_favored_city_endpoint "k" "HS256" 0 badToken 7 store1
        = (store1, .error credentialsException)
       ∧ delete_user_endpoint "k" "HS256" 0 badToken 1 store1
        = (store1, .error credentialsException)) :=
  ⟨by decide,
   c2_guarded_endpoints_require_resolveBearer "k" "HS256" 0 badToken store1
     credentialsException 5 7 1 "Oslo" (by decide)⟩

/-- Claim C3, counterexample: alice is disabled yet login with her correct
password returns a token, because `authenticate_user` never consults the
disabled flag — contradicting the claim. -/
theorem c3_counterexample_disabled_user_gets_token :
    disabledAlice.disabled = some true
    ∧ vp1 "pw" disabledAlice.hashed_password = true
    ∧ login_for_access_token vp1 "k" "HS256" 0 "alice" "pw" store3
        = .ok ⟨some "alice", 900, "k", "HS256"⟩ := by
  decide

/-- Claim C3 (amended): `authenticate_user` ignores the disabled flag:
whenever the username resolves and the password verifies, login issues a
token regardless of `disabled`; the flag is enforced only later, by
`get_current_active_user`, which rejects a disabled user with 400
"Inactive user". -/
theorem c3_amended_disabled_checked_only_at_bearer
    (vp : String → String → Bool) (key alg : String) (now : Nat)
    (uname pw : String) (db : Store) (u : UserRow)
    (hfind : get_user_by_username (some uname) db = .ok u)
    (hvp : vp pw u.hashed_password = true) :
    login_for_access_token vp key alg now uname pw db
      = .ok (create_access_token key alg now (some u.username) none)
    ∧ (u.disabled = some true →
        get_current_active_user u = .error ⟨400, "Inactive user", none⟩) := by
  constructor
  · simp [login_for_access_token, authenticate_user, hfind, hvp]
  · intro hd
    simp [get_current_active_user, hd]

/-- Witness for C3 (amended) at the disabled alice. -/
theorem c3_witness :
    get_user_by_username (some "alice") store3 = .ok disabledAlice
    ∧ vp1 "pw" disabledAlice.hashed_password = true
    ∧ (login_for_access_token vp1 "k" "HS256" 0 "alice" "pw" store3
        = .ok (create_access_token "k" "HS256" 0 (some disabledAlice.username) none)
       ∧ (disabledAlice.disabled = some true →
           get_current_active_user disabledAlice
             = .error ⟨400, "Inactive user", none⟩)) :=
  ⟨by decide, by decide,
   c3_amended_disabled_checked_only_at_bearer vp1 "k" "HS256" 0 "alice" "pw"
     store3 disabledAlice (by decide) (by decide)⟩

/-- Claim C4, counterexample: alice (id 1) authenticates and deletes the
favorite-city row with favored_id 7, which is owned by bob (id 2): a row
owned by a different user is removed, because `delete_favored_city`
filters on the row key only — contradicting the claim. -/
theorem c4_counterexample_cross_owner_delete :
    resolveBearer "k" "HS256" 0 aliceToken store4 = .ok aliceRow
    ∧ (⟨7, 2, "Oslo"⟩ : CityRow) ∈ store4.favored_cities
    ∧ aliceRow.id ≠ 2
    ∧ (delete_favored_city_endpoint "k" "HS256" 0 aliceToken 7 store4).1.favored_cities
        = [] := by
  decide

/-- Claim C4 (amended): the add call attaches the new row to the
authenticated user id (the request carries no client-supplied id), and the
delete call removes rows solely by the given favored_id: every row with a
different favored_id survives — including rows of other users — but
ownership is not checked, so a row of another user with the matching
favored_id is deleted. -/
theorem c4_amended_add_owner_scoped_delete_by_key
    (key alg : String) (now : Nat) (token : Token) (db : Store)
    (u : UserRow) (new_id fid : Nat) (city : String)
    (hauth : resolveBearer key alg now token db = .ok u) :
    (db.favored_cities.all (fun c => !(c.favored_id == new_id)) = true →
      add_favorite_city_endpoint key alg now token new_id city db
        = ({ db with favored_cities := db.favored_cities ++ [⟨new_id, u.id, city⟩] },
           .ok (new_id, u.username, city)))
    ∧ (∀ c ∈ db.favored_cities, c.favored_id ≠ fid →
        c ∈ (delete_favored_city_endpoint key alg now token fid db).1.favored_cities) := by
  constructor
  · intro hall
    rw [List.all_eq_true] at hall
    have hany : db.favored_cities.any (fun c => c.favored_id == new_id) = false := by
      refine List.any_eq_false.mpr (fun c hc => ?_)
      simpa using hall c hc
    unfold add_favorite_city_endpoint
    rw [hauth]
    unfold add_favorite_city
    rw [hany]
    simp
  · intro c hc hne
    unfold delete_favored_city_endpoint
    rw [hauth]
    by_cases h :
        ((db.favored_cities.filter (fun x => !(x.favored_id == fid))).length
          == db.favored_cities.length) = true
    · simp only [delete_favored_city, h, if_true]
      exact hc
    · simp only [delete_favored_city, h, if_false, Bool.false_eq_true]
      exact List.mem_filter.mpr ⟨hc, by simpa using hne⟩

/-- Witness for C4 (amended) on the two-user store. -/
theorem c4_witness :
    resolveBearer "k" "HS256" 0 aliceToken store4 = .ok aliceRow
    ∧ ((store4.favored_cities.all (fun c => !(c.favored_id == 5)) = true →
         add_favorite_city_endpoint "k" "HS256" 0 aliceToken 5 "Oslo" store4
           = ({ store4 with favored_cities := store4.favored_cities ++ [⟨5, aliceRow.id, "Oslo"⟩] },
              .ok (5, aliceRow.username, "Oslo")))
       ∧ (∀ c ∈ store4.favored_cities, c.favored_id ≠ 7 →
           c ∈ (delete_favored_city_endpoint "k" "HS256" 0 aliceToken 7 store4).1.favored_cities)) :=
  ⟨by decide,
   c4_amended_add_owner_scoped_delete_by_key "k" "HS256" 0 aliceToken store4
     aliceRow 5 7 "Oslo" (by decide)⟩

/-- Claim C5: the code evaluated at the failing input. A well-signed,
unexpired token whose subject "ghost" names no user is decoded
successfully, but the subsequent lookup raises 404 "User not found" from
`get_user_by_username`, outside the try block of `get_current_user` — not
the uniform 401 "Could not validate credentials" with the Bearer
challenge that the claim requires (that branch is unreachable). -/
theorem c5_unknown_subject_yields_404 :
    jwt_decode ghostToken "k" ["HS256"] 0 = some ⟨some "ghost", 900⟩
    ∧ get_current_user "k" "HS256" 0 ghostToken store1
        = .error ⟨404, "User not found", none⟩
    ∧ (⟨404, "User not found", none⟩ : HTTPException) ≠ credentialsException := by
  decide

/-- Claim C6: a valid token resolving to a user whose disabled flag is set
is rejected by the bearer pipeline with 400 "Inactive user", never
accepted, and that rejection differs from the invalid-credentials one. -/
theorem c6_disabled_user_inactive_rejection
    (key alg : String) (now : Nat) (token : Token) (db : Store) (u : UserRow)
    (hres : get_current_user key alg now token db = .ok u)
    (hdis : u.disabled = some true) :
    resolveBearer key alg now token db = .error ⟨400, "Inactive user", none⟩
    ∧ (⟨400, "Inactive user", none⟩ : HTTPException) ≠ credentialsException := by
  constructor
  · unfold resolveBearer
    rw [hres]
    simp [get_current_active_user, hdis]
  · decide

/-- Witness for C6 at the disabled alice. -/
theorem c6_witness :
    get_current_user "k" "HS256" 0 aliceToken store3 = .ok disabledAlice
    ∧ disabledAlice.disabled = some true
    ∧ (resolveBearer "k" "HS256" 0 aliceToken store3
        = .error ⟨400, "Inactive user", none⟩
       ∧ (⟨400, "Inactive user", none⟩ : HTTPException) ≠ credentialsException) :=
  ⟨by decide, by decide,
   c6_disabled_user_inactive_rejection "k" "HS256" 0 aliceToken store3
     disabledAlice (by decide) (by decide)⟩

/-- Claim C7: a token whose embedded expiry is before the current time is
rejected with the credentials exception even when its signature (key and
algorithm) is valid, and the bearer pipeline rejects it likewise. -/
theorem c7_expired_token_rejected
    (key alg : String) (now : Nat) (token : Token) (db : Store)
    (hkey : token.key = key) (halg : token.alg = alg)
    (hexp : token.exp < now) :
    get_current_user key alg now token db = .error credentialsException
    ∧ resolveBearer key alg now token db = .error credentialsException := by
  have hdec : jwt_decode token key [alg] now = none := by
    unfold jwt_decode
    rw [if_pos ⟨hkey, by simp [halg]⟩, if_pos hexp]
  constructor
  · unfold get_current_user
    rw [hdec]
  · unfold resolveBearer get_current_user
    rw [hdec]

/-- Witness for C7 at a well-signed token expired at time 5, checked at
time 10. -/
theorem c7_witness :
    expiredToken.key = "k" ∧ expiredToken.alg = "HS256" ∧ expiredToken.exp < 10
    ∧ (get_current_user "k" "HS256" 10 expiredToken store1
        = .error credentialsException
       ∧ resolveBearer "k" "HS256" 10 expiredToken store1
        = .error credentialsException) :=
  ⟨rfl, rfl, by decide,
   c7_expired_token_rejected "k" "HS256" 10 expiredToken store1 rfl rfl (by decide)⟩

/-- Claim C8: issuing a token for a subject and verifying it immediately
with the same key and algorithm succeeds and recovers exactly the original
subject (the expiry, current time plus the ttl, is never in the past at
issuance time). -/
theorem c8_issue_verify_roundtrip
    (key alg sub : String) (now ttl : Nat) :
    jwt_decode (create_access_token key alg now (some sub) (some ttl)) key [alg] now
      = some ⟨some sub, now + ttl⟩ := by
  unfold jwt_decode create_access_token
  simp

/-- Claim C9, counterexample: deleting bob (id 2) physically removes his
row from the users table — it is not retained with the disabled flag set —
contradicting the claim that deletion is logical. -/
theorem c9_counterexample_physical_delete :
    bobRow ∈ store1.users
    ∧ delete_user 2 store1 = (⟨[aliceRow], []⟩, .ok ())
    ∧ (∀ u ∈ (delete_user 2 store1).1.users, u.id ≠ 2) := by
  decide

/-- Claim C9 (amended): `delete_user` physically removes every users row
with the given id and nothing else: the surviving rows are exactly the
original rows with a different id, each unchanged (in particular no
disabled flag is set by the operation), and the cities table is
untouched. -/
theorem c9_amended_delete_user_is_physical (id : Nat) (db : Store) :
    (delete_user id db).1.users = db.users.filter (fun u => !(u.id == id))
    ∧ (delete_user id db).1.favored_cities = db.favored_cities
    ∧ (∀ u ∈ (delete_user id db).1.users, u ∈ db.users) := by
  by_cases h :
      ((db.users.filter (fun u => !(u.id == id))).length == db.users.length) = true
  · have hf : db.users.filter (fun u => !(u.id == id)) = db.users :=
      filter_of_length_eq _ _ (by simpa using h)
    simp [delete_user, h, hf]
  · simp only [delete_user, h, if_false, Bool.false_eq_true]
    exact ⟨trivial, trivial, fun u hu => List.mem_of_mem_filter hu⟩

/-- Claim C10: an authenticated delete of a favored city or of a user
whose id matches no row leaves the store unchanged and yields a 500 whose
detail is the stringified 404 exception, because the handler catch-all
rewraps its own HTTPException(404). -/
theorem c10_missing_row_delete_rewrapped_as_500
    (key alg : String) (now : Nat) (token : Token) (db : Store) (u : UserRow)
    (fid uid : Nat)
    (hauth : resolveBearer key alg now token db = .ok u)
    (hfid : ∀ c ∈ db.favored_cities, c.favored_id ≠ fid)
    (huid : ∀ r ∈ db.users, r.id ≠ uid) :
    delete_favored_city_endpoint key alg now token fid db
      = (db, .error ⟨500, "404: City not found", none⟩)
    ∧ delete_user_endpoint key alg now token uid db
      = (db, .error ⟨500, "404: User not found", none⟩) := by
  have hf1 : db.favored_cities.filter (fun c => !(c.favored_id == fid))
      = db.favored_cities :=
    List.filter_eq_self.mpr (fun c hc => by simp [hfid c hc])
  have hf2 : db.users.filter (fun r => !(r.id == uid)) = db.users :=
    List.filter_eq_self.mpr (fun r hr => by simp [huid r hr])
  constructor
  · unfold delete_favored_city_endpoint
    rw [hauth]
    unfold delete_favored_city
    rw [hf1]
    simp
  · unfold delete_user_endpoint
    rw [hauth]
    unfold delete_user
    rw [hf2]
    simp

/-- Witness for C10: alice deletes favored_id 9 and user id 99, neither of
which exists in the store. -/
theorem c10_witness :
    resolveBearer "k" "HS256" 0 aliceToken store4 = .ok aliceRow
    ∧ (∀ c ∈ store4.favored_cities, c.favored_id ≠ 9)
    ∧ (∀ r ∈ store4.users, r.id ≠ 99)
    ∧ (delete_favored_city_endpoint "k" "HS256" 0 aliceToken 9 store4
        = (store4, .error ⟨500, "404: City not found", none⟩)
       ∧ delete_user_endpoint "k" "HS256" 0 aliceToken 99 store4
        = (store4, .error ⟨500, "404: User not found", none⟩)) :=
  ⟨by decide, by decide, by decide,
   c10_missing_row_delete_rewrapped_as_500 "k" "HS256" 0 aliceToken store4
     aliceRow 9 99 (by decide) (by decide) (by decide)⟩

end FastAPIService
